import Mathlib

/-!
Quotation Maker: draft editor and persistence service.

A shallow embedding of `src/client/src/App.js` (the draft editor, the save
action) and `src/server/index.js` (the REST handlers over one collection).

Modelling conventions.

* A React state value is an immutable Lean value; every handler is a function
  from the state it closes over to the state it installs with `setFormData`.
  Handlers run one at a time, each on the state of the latest render.
* JavaScript numbers are exact rationals plus `NaN` (`JsNum`).  Rounding,
  overflow, infinities and the sign of zero are not represented.
* A form field that the number inputs write to holds either a number (the
  initial `1` and `0`) or the string typed by the user (`e.target.value`); this
  is `JsVal`, and `Number(...)` is `JsVal.toNumber`.
* An array index is a natural number, as produced by `items.map((item, index) ...)`.
* The libraries are the environment: `axios.post`, `html2canvas` and `jsPDF`
  are outcomes handed to the handlers, the Mongoose model is a list of
  documents with the schema's validators and unique index, and the pattern
  engine behind `$regex` is a parameter of the search handler.
-/

namespace QuotationMaker

/-! ## JavaScript values -/

/-- A JavaScript number: a finite value or `NaN`. -/
inductive JsNum where
  | fin (q : ℚ)
  | nan
  deriving DecidableEq, Repr

namespace JsNum

/-- The operator `*` on two numbers. -/
def mul : JsNum → JsNum → JsNum
  | fin a, fin b => fin (a * b)
  | _, _ => nan

/-- The operator `+` on two numbers. -/
def add : JsNum → JsNum → JsNum
  | fin a, fin b => fin (a + b)
  | _, _ => nan

instance : Mul JsNum := ⟨mul⟩
instance : Add JsNum := ⟨add⟩
instance : Zero JsNum := ⟨fin 0⟩
instance : OfNat JsNum n := ⟨fin n⟩

end JsNum

/-- The code points that `String.prototype.trim` and `Number` strip: the
ECMAScript `WhiteSpace` and `LineTerminator` productions. -/
def isStrWhiteSpaceChar (c : Char) : Bool :=
  let n := c.toNat
  n == 0x09 || n == 0x0A || n == 0x0B || n == 0x0C || n == 0x0D || n == 0x20 ||
  n == 0xA0 || n == 0x1680 || (0x2000 ≤ n && n ≤ 0x200A) || n == 0x2028 ||
  n == 0x2029 || n == 0x202F || n == 0x205F || n == 0x3000 || n == 0xFEFF

/-- Strip white space from both ends of a character list. -/
def trimChars (cs : List Char) : List Char :=
  ((cs.dropWhile isStrWhiteSpaceChar).reverse.dropWhile isStrWhiteSpaceChar).reverse

/-- The method `String.prototype.trim`. -/
def jsTrim (s : String) : String := String.mk (trimChars s.toList)

/-- Value of one digit in the given radix, if the character is such a digit. -/
def digitValue (radix : Nat) (c : Char) : Option Nat :=
  let n := c.toNat
  let v :=
    if 48 ≤ n ∧ n ≤ 57 then some (n - 48)
    else if 97 ≤ n ∧ n ≤ 102 then some (n - 87)
    else if 65 ≤ n ∧ n ≤ 70 then some (n - 55)
    else none
  v.bind fun d => if d < radix then some d else none

/-- Value of a non-empty run of digits in the given radix. -/
def digitsValue (radix : Nat) (cs : List Char) : Option Nat :=
  if cs.isEmpty then none
  else cs.foldl (fun acc c => acc.bind fun a => (digitValue radix c).map fun d => a * radix + d)
    (some 0)

/-- Value of a possibly empty run of decimal digits. -/
def decimalDigits (cs : List Char) : Option Nat :=
  if cs.isEmpty then some 0 else digitsValue 10 cs

/-- The `ExponentPart` of a decimal literal: empty, or `e`/`E`, an optional sign
and at least one digit. -/
def exponentPart : List Char → Option ℤ
  | [] => some 0
  | c :: rest =>
    if c == 'e' || c == 'E' then
      match rest with
      | '+' :: ds => (digitsValue 10 ds).map Int.ofNat
      | '-' :: ds => (digitsValue 10 ds).map fun n => - Int.ofNat n
      | ds => (digitsValue 10 ds).map Int.ofNat
    else none

/-- The `StrUnsignedDecimalLiteral` grammar without `Infinity`: digits, an
optional fraction and an optional exponent, with at least one digit in the
mantissa. -/
def unsignedDecimal (cs : List Char) : Option ℚ :=
  let ip := cs.takeWhile Char.isDigit
  let r1 := cs.dropWhile Char.isDigit
  let fr : List Char × List Char :=
    match r1 with
    | '.' :: t => (t.takeWhile Char.isDigit, t.dropWhile Char.isDigit)
    | _ => ([], r1)
  if ip.isEmpty && fr.1.isEmpty then none
  else
    (decimalDigits ip).bind fun i =>
    (decimalDigits fr.1).bind fun f =>
    (exponentPart fr.2).map fun e =>
      ((i : ℚ) + (f : ℚ) / (10 : ℚ) ^ fr.1.length) * (10 : ℚ) ^ e

/-- The abstract operation `StringToNumber` on a trimmed string: the empty
string is `0`, a radix-prefixed integer or a signed decimal literal is its value,
everything else is `NaN`.  The literal `Infinity` has no rational value and is
`NaN` here. -/
def strNumericLiteral : List Char → JsNum
  | [] => .fin 0
  | '0' :: 'x' :: ds | '0' :: 'X' :: ds =>
    match digitsValue 16 ds with | some n => .fin n | none => .nan
  | '0' :: 'o' :: ds | '0' :: 'O' :: ds =>
    match digitsValue 8 ds with | some n => .fin n | none => .nan
  | '0' :: 'b' :: ds | '0' :: 'B' :: ds =>
    match digitsValue 2 ds with | some n => .fin n | none => .nan
  | '+' :: cs => match unsignedDecimal cs with | some q => .fin q | none => .nan
  | '-' :: cs => match unsignedDecimal cs with | some q => .fin (-q) | none => .nan
  | cs => match unsignedDecimal cs with | some q => .fin q | none => .nan

/-- A value held by the `quantity` or `price` field: a number, or the string
delivered by the input element. -/
inductive JsVal where
  | num (x : JsNum)
  | str (s : String)
  deriving DecidableEq, Repr

/-- The conversion `Number(value)`. -/
def JsVal.toNumber : JsVal → JsNum
  | .num x => x
  | .str s => strNumericLiteral (trimChars s.toList)

/-- The test `haystack.includes(needle)` on character lists. -/
def includesChars (needle : List Char) : List Char → Bool
  | [] => needle.isEmpty
  | c :: cs => needle.isPrefixOf (c :: cs) || includesChars needle cs

/-- The method `String.prototype.includes`. -/
def jsIncludes (haystack needle : String) : Bool :=
  includesChars needle.toList haystack.toList

/-- The method `Array.prototype.filter` with a callback that reads the element
and its index; `start` is the index of the head of the list. -/
def filterFrom {α : Type} (p : α → Nat → Bool) : Nat → List α → List α
  | _, [] => []
  | start, x :: xs =>
    if p x start then x :: filterFrom p (start + 1) xs else filterFrom p (start + 1) xs

/-- The method `Array.prototype.filter` called as `xs.filter((x, i) => p x i)`. -/
def jsFilter {α : Type} (p : α → Nat → Bool) (xs : List α) : List α :=
  filterFrom p 0 xs

/-! ## The draft (`formData` in `App.js`) -/

/-- The record `companyInfo`. -/
structure CompanyInfo where
  name : String
  address : String
  phone : String
  email : String
  pvt : String
  deriving DecidableEq, Repr

/-- The record `clientInfo`. -/
structure ClientInfo where
  name : String
  address : String
  phone : String
  email : String
  deriving DecidableEq, Repr

/-- One line item.  `quantity` and `price` hold what the inputs wrote; `total`
only ever receives the result of `calculateTotal` or the literal `0`. -/
structure Item where
  description : String
  quantity : JsVal
  price : JsVal
  total : JsNum
  deriving DecidableEq, Repr

/-- The state `formData`. -/
structure Draft where
  quotationNumber : String
  date : String
  companyInfo : CompanyInfo
  clientInfo : ClientInfo
  items : List Item
  deriving DecidableEq, Repr

/-- The fixed company record of `initialFormState`. -/
def fixedCompanyInfo : CompanyInfo :=
  { name := "Wimwa Tech General Supplies Limited"
    address := "P.O Box 273 -00206, Kiserian"
    phone := "+254 712953780"
    email := "wimwatech@gmail.com"
    pvt := "PVT-Y2U9QXGP" }

/-- The object literal `{ description: "", quantity: 1, price: 0, total: 0 }`. -/
def blankItem : Item :=
  { description := "", quantity := .num 1, price := .num 0, total := 0 }

/-- The template string that builds a quotation number from
`Math.floor(Math.random() * 10000)`, here `rnd`. -/
def quoteLabel (rnd : Nat) : String := "Quote-" ++ toString rnd

/-- The object `initialFormState` built by one render: `rnd` is the value of
`Math.floor(Math.random() * 10000)` and `today` the value of
`format(new Date(), "dd/MM/yyyy")` in that render. -/
def initialFormState (rnd : Nat) (today : String) : Draft :=
  { quotationNumber := quoteLabel rnd
    date := today
    companyInfo := fixedCompanyInfo
    clientInfo := { name := "", address := "", phone := "", email := "" }
    items := [blankItem] }

/-- The function `calculateTotal`. -/
def calculateTotal (quantity price : JsNum) : JsNum := quantity * price

/-- The function `getSubtotal`: a left-to-right `reduce` starting from `0`. -/
def getSubtotal (formData : Draft) : JsNum :=
  formData.items.foldl (fun sum item => sum + item.total) 0

/-- The item fields that the form writes through `handleItemChange`. -/
inductive ItemField where
  | description
  | quantity
  | price
  deriving DecidableEq, Repr

/-- What the form passes as `value` for each field: the textarea passes a
string; the number inputs pass a string, and a caller may pass a number. -/
@[reducible] def ItemField.Value : ItemField → Type
  | .description => String
  | .quantity => JsVal
  | .price => JsVal

/-- The assignment `item[field] = value`. -/
def Item.assign (item : Item) : (field : ItemField) → field.Value → Item
  | .description, value => { item with description := value }
  | .quantity, value => { item with quantity := value }
  | .price, value => { item with price := value }

/-- The function `handleItemChange`.  Writing to `newItems[index][field]` with
`index` past the last item throws, so no state is installed: the result is `none`. -/
def handleItemChange (formData : Draft) (index : Nat) (field : ItemField)
    (value : field.Value) : Option Draft :=
  match formData.items[index]? with
  | none => none
  | some item =>
    let written := item.assign field value
    let updated :=
      if field = .quantity ∨ field = .price then
        { written with
          total := calculateTotal written.quantity.toNumber written.price.toNumber }
      else written
    some { formData with items := formData.items.set index updated }

/-- The function `addItem`. -/
def addItem (formData : Draft) : Draft :=
  { formData with items := formData.items ++ [blankItem] }

/-- The function `removeItem`. -/
def removeItem (formData : Draft) (index : Nat) : Draft :=
  if formData.items.length > 1 then
    { formData with items := jsFilter (fun _ i => i != index) formData.items }
  else formData

/-- The client fields that the form writes through `handleClientChange`. -/
inductive ClientField where
  | name
  | address
  | phone
  | email
  deriving DecidableEq, Repr

/-- The spread `{ ...clientInfo, [field]: value }`. -/
def ClientInfo.assign (c : ClientInfo) : ClientField → String → ClientInfo
  | .name, value => { c with name := value }
  | .address, value => { c with address := value }
  | .phone, value => { c with phone := value }
  | .email, value => { c with email := value }

/-- The function `handleClientChange`. -/
def handleClientChange (formData : Draft) (field : ClientField) (value : String) : Draft :=
  { formData with clientInfo := formData.clientInfo.assign field value }

/-- The function `resetForm` of a render whose `initialFormState` was built from
`rnd0` and `today0`; `rnd` and `today` are the random draw and the formatted
date at the moment of the call. -/
def resetForm (rnd0 : Nat) (today0 : String) (rnd : Nat) (today : String) : Draft :=
  { initialFormState rnd0 today0 with
    quotationNumber := quoteLabel rnd
    date := today }

/-! ## The editing session as a transition system -/

/-- One user-visible event that installs a new `formData`. -/
inductive Action where
  | itemChange (index : Nat) (field : ItemField) (value : field.Value)
  | addItem
  | removeItem (index : Nat)
  | clientChange (field : ClientField) (value : String)
  | resetForm (rnd0 : Nat) (today0 : String) (rnd : Nat) (today : String)

/-- Effect of one event on the draft.  A handler that throws installs nothing. -/
def step (formData : Draft) : Action → Draft
  | .itemChange index field value => (handleItemChange formData index field value).getD formData
  | .addItem => addItem formData
  | .removeItem index => removeItem formData index
  | .clientChange field value => handleClientChange formData field value
  | .resetForm rnd0 today0 rnd today => resetForm rnd0 today0 rnd today

/-- Effect of a sequence of events, oldest first. -/
def run (formData : Draft) (actions : List Action) : Draft :=
  actions.foldl step formData

/-! ## The save action -/

/-- One call of `showNotification(message, type)`. -/
structure Notification where
  message : String
  type : String
  deriving DecidableEq, Repr

/-- The body handed to `axios.post`: the spread of `formData` and three more keys. -/
structure Payload where
  formData : Draft
  subtotal : JsNum
  grandTotal : JsNum
  createdAt : Nat
  deriving DecidableEq, Repr

/-- The error object of a rejected `axios.post`. -/
structure AxiosError where
  code : Option String
  message : String
  deriving DecidableEq, Repr

/-- How the promise returned by `axios.post` settles. -/
inductive PostOutcome where
  | resolved
  | rejected (error : AxiosError)
  deriving DecidableEq, Repr

/-- What one run of `saveQuotation` did: the body it posted, if it made the
call; the notifications it raised, in order; and whether it registered the
timer `setTimeout(() => resetForm(), 1000)`. -/
structure SaveResult where
  posted : Option Payload
  notifications : List Notification
  resetScheduled : Bool
  deriving DecidableEq, Repr

/-- The function `saveQuotation`.  `now` is `new Date()` and `post` is the
behaviour of the network and the server behind `axios.post`. -/
def saveQuotation (formData : Draft) (now : Nat) (post : Payload → PostOutcome) : SaveResult :=
  if jsTrim formData.clientInfo.name = "" then
    { posted := none
      notifications := [⟨"Please enter client name", "error"⟩]
      resetScheduled := false }
  else
    let hasValidItems := formData.items.any fun item => jsTrim item.description != ""
    if !hasValidItems then
      { posted := none
        notifications := [⟨"Please add at least one item description", "error"⟩]
        resetScheduled := false }
    else
      let body : Payload :=
        { formData := formData
          subtotal := getSubtotal formData
          grandTotal := getSubtotal formData
          createdAt := now }
      match post body with
      | .resolved =>
        { posted := some body
          notifications := [⟨"Quotation saved successfully to database!", "success"⟩]
          resetScheduled := true }
      | .rejected error =>
        if error.code = some "ECONNREFUSED" || jsIncludes error.message "timeout" then
          { posted := some body
            notifications :=
              [⟨"Cannot connect to server. Make sure MongoDB and server are running.", "error"⟩]
            resetScheduled := false }
        else
          { posted := some body
            notifications :=
              [⟨"Failed to save to database. Check console for details.", "error"⟩]
            resetScheduled := false }

/-- The draft once `saveQuotation` has settled and the timer it registered, if
any, has fired.  The timer runs `resetForm` of the render that started the save
(`rnd0`, `today0`), drawing `rnd` and `today` when it fires. -/
def draftAfterSave (formData : Draft) (result : SaveResult)
    (rnd0 : Nat) (today0 : String) (rnd : Nat) (today : String) : Draft :=
  if result.resetScheduled then resetForm rnd0 today0 rnd today else formData

/-! ## The export action -/

/-- The arguments `x`, `y`, `imgWidth`, `imgHeight` of `pdf.addImage`, in
millimetres. -/
structure Placement where
  x : ℚ
  y : ℚ
  imgWidth : ℚ
  imgHeight : ℚ
  deriving DecidableEq, Repr

/-- The constant `pageWidth`. -/
def pageWidth : ℚ := 210

/-- The constant `pageHeight`. -/
def pageHeight : ℚ := 297

/-- The placement that `downloadPDF` computes from `canvas.width` and
`canvas.height`, in exact arithmetic. -/
def imagePlacement (canvasWidth canvasHeight : ℚ) : Placement :=
  let imgRatio := canvasWidth / canvasHeight
  let pageRatio := pageWidth / pageHeight
  let size : ℚ × ℚ :=
    if imgRatio > pageRatio then (pageWidth, pageWidth / imgRatio)
    else (pageHeight * imgRatio, pageHeight)
  { x := (pageWidth - size.1) / 2
    y := (pageHeight - size.2) / 2
    imgWidth := size.1
    imgHeight := size.2 }

/-- The state of the component that the export reads and writes: the draft, the
flag `isGeneratingPDF`, and the number of runs of `downloadPDF` that have
started and not yet reached their `finally` block (a counter kept for the
proofs; the source has no such variable). -/
structure UiState where
  formData : Draft
  isGeneratingPDF : Bool
  exportsRunning : Nat
  deriving DecidableEq, Repr

/-- What the libraries do during one run of `downloadPDF`: the size of the
canvas that `html2canvas` and `toDataURL` deliver, or `none` when one of them
throws; and whether the calls to `jsPDF` run to completion. -/
structure ExportEnv where
  canvas : Option (ℚ × ℚ)
  pdfWritten : Bool
  deriving DecidableEq, Repr

/-- What one run of `downloadPDF` did: the notifications it raised, in order,
and the file it saved with the placement of the image, if it got that far. -/
structure ExportResult where
  notifications : List Notification
  saved : Option (String × Placement)
  deriving DecidableEq, Repr

/-- The head of `downloadPDF`, up to its first `await`: `setIsGeneratingPDF(true)`. -/
def downloadPDFStart (ui : UiState) : UiState :=
  { ui with isGeneratingPDF := true, exportsRunning := ui.exportsRunning + 1 }

/-- The `finally` block of `downloadPDF`: `setIsGeneratingPDF(false)`. -/
def downloadPDFFinally (ui : UiState) : UiState :=
  { ui with isGeneratingPDF := false, exportsRunning := ui.exportsRunning - 1 }

/-- The `try` block of `downloadPDF` after the first `await`: capture, placement
and `pdf.save`; `none` when a step throws. -/
def exportAttempt (formData : Draft) (env : ExportEnv) : Option (String × Placement) :=
  match env.canvas with
  | none => none
  | some (canvasWidth, canvasHeight) =>
    if env.pdfWritten then
      some ("Quotation-" ++ formData.quotationNumber ++ ".pdf",
        imagePlacement canvasWidth canvasHeight)
    else none

/-- The function `downloadPDF`, run from the click to the end of `finally`. -/
def downloadPDF (ui : UiState) (env : ExportEnv) : UiState × ExportResult :=
  let started := downloadPDFStart ui
  match exportAttempt ui.formData env with
  | some file =>
    (downloadPDFFinally started,
      { notifications :=
          [⟨"Generating PDF...", "info"⟩, ⟨"PDF downloaded successfully!", "success"⟩]
        saved := some file })
  | none =>
    (downloadPDFFinally started,
      { notifications :=
          [⟨"Generating PDF...", "info"⟩,
           ⟨"Failed to generate PDF. Please try again.", "error"⟩]
        saved := none })

/-- The attribute `disabled={isGeneratingPDF}` of the Download PDF button, the
only element whose `onClick` is `downloadPDF`. -/
def downloadDisabled (ui : UiState) : Bool := ui.isGeneratingPDF

/-- An event of the page: an edit of the draft, a click on the Download PDF
button, or a running export reaching its `finally` block. -/
inductive UiEvent where
  | edit (action : Action)
  | clickDownload
  | exportSettles

/-- Effect of one event.  A disabled button dispatches no click, and only a
running export can settle. -/
def uiStep (ui : UiState) : UiEvent → UiState
  | .edit action => { ui with formData := step ui.formData action }
  | .clickDownload => if downloadDisabled ui then ui else downloadPDFStart ui
  | .exportSettles => if ui.exportsRunning = 0 then ui else downloadPDFFinally ui

/-- Effect of a sequence of events, oldest first. -/
def uiRun (ui : UiState) (events : List UiEvent) : UiState :=
  events.foldl uiStep ui

/-- The state of the first render. -/
def initialUi (rnd : Nat) (today : String) : UiState :=
  { formData := initialFormState rnd today, isGeneratingPDF := false, exportsRunning := 0 }

/-! ## The persistence service (`src/server/index.js`)

The collection behind the Mongoose model `Quotation` is a list of documents in
insertion order.  Requests are served one at a time and the database is
reachable.  Request bodies are well-typed JSON over the schema's paths; a body
that names its own `_id` is not represented. -/

/-- A stored document of the collection. -/
structure Quotation where
  id : Nat
  quotationNumber : String
  date : String
  companyInfo : Option CompanyInfo
  clientInfo : ClientInfo
  items : List Item
  subtotal : ℚ
  grandTotal : ℚ
  createdAt : Nat
  deriving DecidableEq, Repr

/-- A request body `req.body`: every path of the schema may be absent. -/
structure QuotationData where
  quotationNumber : Option String
  date : Option String
  companyInfo : Option CompanyInfo
  clientInfo : Option ClientInfo
  items : Option (List Item)
  subtotal : Option ℚ
  grandTotal : Option ℚ
  createdAt : Option Nat
  deriving DecidableEq, Repr

/-- The route parameter `req.params.id`: a string that casts to an `ObjectId`,
or one that does not. -/
inductive IdParam where
  | objectId (id : Nat)
  | malformed
  deriving DecidableEq, Repr

/-- The payload under the key `data` of a response. -/
inductive ResponseData where
  | one (quotation : Quotation)
  | many (quotations : List Quotation)
  deriving DecidableEq, Repr

/-- A response: the HTTP status and the keys of the JSON body. -/
structure Response where
  status : Nat
  success : Bool
  message : Option String
  data : Option ResponseData
  count : Option Nat
  error : Option String
  mongodb : Option String
  deriving DecidableEq, Repr

/-- The `required: true` validator of a `String` path: the value must be
present and not the empty string. -/
def requiredString : Option String → Bool
  | some s => s != ""
  | none => false

/-- Document validation run by `quotation.save()`: the five required paths of
`quotationSchema`. -/
def validateDocument (body : QuotationData) : Bool :=
  requiredString body.quotationNumber && requiredString body.date &&
  requiredString (body.clientInfo.map fun c => c.name) &&
  body.subtotal.isSome && body.grandTotal.isSome

/-- The document `new Quotation(quotationData)` with the generated `_id` and the
default `createdAt: Date.now`; absent paths take the empty value of their type. -/
def newQuotation (newId now : Nat) (body : QuotationData) : Quotation :=
  { id := newId
    quotationNumber := body.quotationNumber.getD ""
    date := body.date.getD ""
    companyInfo := body.companyInfo
    clientInfo := body.clientInfo.getD { name := "", address := "", phone := "", email := "" }
    items := body.items.getD []
    subtotal := body.subtotal.getD 0
    grandTotal := body.grandTotal.getD 0
    createdAt := body.createdAt.getD now }

/-- The query `Quotation.findOne({ quotationNumber })`. -/
def findOne (store : List Quotation) (quotationNumber : Option String) : Option Quotation :=
  match quotationNumber with
  | none => none
  | some n => store.find? fun q => q.quotationNumber == n

/-- The call `quotation.save()`: validation, then the insert, which the unique
index on `quotationNumber` (`unique: true`) rejects on a duplicate key. -/
def save (store : List Quotation) (body : QuotationData) (quotation : Quotation) :
    Except String (List Quotation) :=
  if !validateDocument body then .error "Quotation validation failed"
  else if store.any fun q => q.quotationNumber == quotation.quotationNumber then
    .error "E11000 duplicate key error"
  else .ok (store ++ [quotation])

/-- The handler of `POST /api/quotations`. -/
def postQuotations (store : List Quotation) (newId now : Nat) (body : QuotationData) :
    List Quotation × Response :=
  match findOne store body.quotationNumber with
  | some _ =>
    (store,
      { status := 400, success := false
        message := some "Quotation number already exists. Please generate a new one."
        data := none, count := none, error := none, mongodb := none })
  | none =>
    let quotation := newQuotation newId now body
    match save store body quotation with
    | .ok store1 =>
      (store1,
        { status := 201, success := true
          message := some "Quotation saved successfully"
          data := some (.one quotation), count := none, error := none, mongodb := none })
    | .error e =>
      (store,
        { status := 500, success := false
          message := some "Failed to save quotation"
          data := none, count := none, error := some e, mongodb := none })

/-- Update validators (`runValidators: true`): the `required` validator of each
required path that the update sets. -/
def validateUpdate (body : QuotationData) : Bool :=
  (body.quotationNumber.isNone || requiredString body.quotationNumber) &&
  (body.date.isNone || requiredString body.date) &&
  (body.clientInfo.isNone || requiredString (body.clientInfo.map fun c => c.name))

/-- The update `{ $set: req.body }` applied to one document. -/
def applyUpdate (q : Quotation) (body : QuotationData) : Quotation :=
  { id := q.id
    quotationNumber := body.quotationNumber.getD q.quotationNumber
    date := body.date.getD q.date
    companyInfo := match body.companyInfo with | some c => some c | none => q.companyInfo
    clientInfo := body.clientInfo.getD q.clientInfo
    items := body.items.getD q.items
    subtotal := body.subtotal.getD q.subtotal
    grandTotal := body.grandTotal.getD q.grandTotal
    createdAt := body.createdAt.getD q.createdAt }

/-- The write of `findByIdAndUpdate` on the collection: the first document with
the given `_id` is replaced by its update, unless another document already
holds the new `quotationNumber` (unique index).  `none` when no document has
the `_id`. -/
def updateFirst (id : Nat) (body : QuotationData) :
    List Quotation → List Quotation → Except String (Option (Quotation × List Quotation))
  | _, [] => .ok none
  | before, q :: after =>
    if q.id == id then
      let q1 := applyUpdate q body
      if (before ++ after).any fun other => other.quotationNumber == q1.quotationNumber then
        .error "E11000 duplicate key error"
      else .ok (some (q1, before ++ q1 :: after))
    else updateFirst id body (before ++ [q]) after

/-- The call `Quotation.findByIdAndUpdate(id, body, { new: true, runValidators: true })`. -/
def findByIdAndUpdate (store : List Quotation) (id : IdParam) (body : QuotationData) :
    Except String (Option (Quotation × List Quotation)) :=
  match id with
  | .malformed => .error "Cast to ObjectId failed"
  | .objectId n =>
    if !validateUpdate body then .error "Validation failed"
    else updateFirst n body [] store

/-- The handler of `PUT /api/quotations/:id`. -/
def putQuotation (store : List Quotation) (id : IdParam) (body : QuotationData) :
    List Quotation × Response :=
  match findByIdAndUpdate store id body with
  | .ok none =>
    (store,
      { status := 404, success := false, message := some "Quotation not found"
        data := none, count := none, error := none, mongodb := none })
  | .ok (some (quotation, store1)) =>
    (store1,
      { status := 200, success := true, message := some "Quotation updated successfully"
        data := some (.one quotation), count := none, error := none, mongodb := none })
  | .error e =>
    (store,
      { status := 500, success := false, message := some "Failed to update quotation"
        data := none, count := none, error := some e, mongodb := none })

/-- The call `Quotation.findByIdAndDelete(id)`: the first document with the
`_id` and the collection without it. -/
def findByIdAndDelete (store : List Quotation) (id : IdParam) :
    Except String (Option (Quotation × List Quotation)) :=
  match id with
  | .malformed => .error "Cast to ObjectId failed"
  | .objectId n =>
    match store.find? fun q => q.id == n with
    | none => .ok none
    | some q => .ok (some (q, store.eraseP fun q => q.id == n))

/-- The handler of `DELETE /api/quotations/:id`. -/
def deleteQuotation (store : List Quotation) (id : IdParam) : List Quotation × Response :=
  match findByIdAndDelete store id with
  | .ok none =>
    (store,
      { status := 404, success := false, message := some "Quotation not found"
        data := none, count := none, error := none, mongodb := none })
  | .ok (some (_, store1)) =>
    (store1,
      { status := 200, success := true, message := some "Quotation deleted successfully"
        data := none, count := none, error := none, mongodb := none })
  | .error e =>
    (store,
      { status := 500, success := false, message := some "Failed to delete quotation"
        data := none, count := none, error := some e, mongodb := none })

/-- A request that writes to the collection.  A create carries the `ObjectId`
that `new Quotation` generates and the value of `Date.now`. -/
inductive Request where
  | create (newId now : Nat) (body : QuotationData)
  | update (id : IdParam) (body : QuotationData)
  | delete (id : IdParam)
  deriving Repr

/-- The collection after one request. -/
def serve (store : List Quotation) : Request → List Quotation
  | .create newId now body => (postQuotations store newId now body).1
  | .update id body => (putQuotation store id body).1
  | .delete id => (deleteQuotation store id).1

/-- The collection after a sequence of requests, oldest first. -/
def serveAll (store : List Quotation) (requests : List Request) : List Quotation :=
  requests.foldl serve store

/-! ## Regular expressions (`$regex` with `$options: "i"`)

The search handler hands the route parameter to the database as a pattern.  The
handlers below take the pattern engine as a parameter; `pcreSubset` is a
concrete engine for the constructs listed at `compileLoop`. -/

/-- A pattern engine: `none` when the pattern does not compile, otherwise the
test "the pattern matches somewhere in the subject", letter case ignored. -/
abbrev RegexEngine := String → Option (String → Bool)

/-- Patterns: the empty language, the empty word, a literal, `.` (any character
but a newline), any character, the anchors `^` and `$`, sequence, alternative
and repetition. -/
inductive Regex where
  | fail
  | empty
  | char (c : Char)
  | dot
  | anyChar
  | bol
  | eol
  | seq (a b : Regex)
  | alt (a b : Regex)
  | star (a : Regex)
  deriving DecidableEq, Repr

/-- Whether the pattern matches the empty word at a position that is, or is not,
the start and the end of the subject. -/
def Regex.nullableAt (atStart atEnd : Bool) : Regex → Bool
  | .fail => false
  | .empty => true
  | .char _ => false
  | .dot => false
  | .anyChar => false
  | .bol => atStart
  | .eol => atEnd
  | .seq a b => a.nullableAt atStart atEnd && b.nullableAt atStart atEnd
  | .alt a b => a.nullableAt atStart atEnd || b.nullableAt atStart atEnd
  | .star _ => true

/-- The pattern for what may follow once the character `c` has been read at the
given position; literals are compared without regard to the case of ASCII
letters. -/
def Regex.derivAt (atStart atEnd : Bool) (c : Char) : Regex → Regex
  | .fail => .fail
  | .empty => .fail
  | .char d => if c.toLower == d.toLower then .empty else .fail
  | .dot => if c == '\n' then .fail else .empty
  | .anyChar => .empty
  | .bol => .fail
  | .eol => .fail
  | .seq a b =>
    if a.nullableAt atStart atEnd then
      .alt (.seq (a.derivAt atStart atEnd c) b) (b.derivAt atStart atEnd c)
    else .seq (a.derivAt atStart atEnd c) b
  | .alt a b => .alt (a.derivAt atStart atEnd c) (b.derivAt atStart atEnd c)
  | .star a => .seq (a.derivAt atStart atEnd c) (.star a)

/-- Whether the pattern matches the whole of the remaining subject.  The end
anchor holds at the end and just before a final newline. -/
def Regex.matchesFrom : Bool → Regex → List Char → Bool
  | atStart, r, [] => r.nullableAt atStart true
  | atStart, r, c :: cs =>
    Regex.matchesFrom false (r.derivAt atStart (c :: cs == ['\n']) c) cs

/-- Whether the pattern matches somewhere in the subject. -/
def Regex.search (r : Regex) (subject : List Char) : Bool :=
  Regex.matchesFrom true (.seq (.star .anyChar) (.seq r (.star .anyChar))) subject

/-- Outcome of reading a pattern: a pattern, a compile error, or a construct
that is not modelled. -/
inductive Compiled where
  | ok (r : Regex)
  | invalid
  | unsupported
  deriving DecidableEq, Repr

/-- A group under construction: its finished alternatives, oldest first, and the
atoms of the current alternative, newest first, each with the mark "may take
a quantifier". -/
structure Frame where
  alts : List Regex
  atoms : List (Regex × Bool)
  deriving Repr

/-- The sequence of the atoms of one alternative. -/
def concatAtoms (atoms : List (Regex × Bool)) : Regex :=
  atoms.foldl (fun acc a => Regex.seq a.1 acc) .empty

/-- The pattern of a finished group. -/
def Frame.close (f : Frame) : Regex :=
  f.alts.foldr Regex.alt (concatAtoms f.atoms)

/-- Append an atom to the current alternative. -/
def Frame.push (f : Frame) (r : Regex) (repeatable : Bool) : Frame :=
  { f with atoms := (r, repeatable) :: f.atoms }

/-- The quantifiers `*`, `+` and `?` applied to an atom. -/
def quantify (c : Char) (a : Regex) : Regex :=
  if c == '*' then .star a
  else if c == '+' then .seq a (.star a)
  else .alt a .empty

/-- Reader of patterns.  Modelled: literals, `\` before a non-alphanumeric
character, `.`, `^`, `$`, groups `( )`, alternatives `|`, and one of `*`, `+`,
`?` after a literal, `.` or group.  Compile errors: an unmatched parenthesis, a
quantifier with nothing before it, a final `\`.  Everything else (classes,
braces, `\` before a letter or digit, `(?`, `(*`, a quantifier after an anchor
or after another quantifier) is `unsupported`. -/
def compileLoop : List Char → Bool → Frame → List Frame → Compiled
  | [], escaped, cur, stack =>
    if escaped then .invalid
    else
      match stack with
      | [] => .ok cur.close
      | _ :: _ => .invalid
  | c :: rest, true, cur, stack =>
    if c.isAlphanum then .unsupported
    else compileLoop rest false (cur.push (.char c) true) stack
  | c :: rest, false, cur, stack =>
    if c == '\\' then compileLoop rest true cur stack
    else if c == '(' then
      if rest.head? == some '?' || rest.head? == some '*' then .unsupported
      else compileLoop rest false { alts := [], atoms := [] } (cur :: stack)
    else if c == ')' then
      match stack with
      | [] => .invalid
      | parent :: stack1 => compileLoop rest false (parent.push cur.close true) stack1
    else if c == '|' then
      compileLoop rest false { alts := cur.alts ++ [concatAtoms cur.atoms], atoms := [] } stack
    else if c == '*' || c == '+' || c == '?' then
      match cur.atoms with
      | [] => .invalid
      | (_, false) :: _ => .unsupported
      | (a, true) :: more =>
        compileLoop rest false { alts := cur.alts, atoms := (quantify c a, false) :: more } stack
    else if c == '.' then compileLoop rest false (cur.push .dot true) stack
    else if c == '^' then compileLoop rest false (cur.push .bol false) stack
    else if c == '$' then compileLoop rest false (cur.push .eol false) stack
    else if c == '[' || c == ']' || c == '{' || c == '}' then .unsupported
    else compileLoop rest false (cur.push (.char c) true) stack

/-- Read a pattern from its text. -/
def compile (pattern : String) : Compiled :=
  compileLoop pattern.toList false { alts := [], atoms := [] } []

/-- The engine for the modelled constructs.  It is meant for patterns that
`compile` reads as `ok` or `invalid`; on an `unsupported` pattern it reports
`none` as well. -/
def pcreSubset : RegexEngine := fun pattern =>
  match compile pattern with
  | .ok r => some fun subject => r.search subject.toList
  | .invalid => none
  | .unsupported => none

/-! ## The read handlers -/

/-- The cursor method `.sort({ createdAt: -1 })`: newest first; records with
equal `createdAt` keep their stored order. -/
def sortNewestFirst (quotations : List Quotation) : List Quotation :=
  quotations.insertionSort fun a b => a.createdAt ≥ b.createdAt

/-- The handler of `GET /api/quotations`. -/
def getQuotations (store : List Quotation) : Response :=
  let quotations := sortNewestFirst store
  { status := 200, success := true, message := none
    data := some (.many quotations), count := some quotations.length
    error := none, mongodb := none }

/-- The call `Quotation.findById(id)`. -/
def findById (store : List Quotation) (id : IdParam) : Except String (Option Quotation) :=
  match id with
  | .malformed => .error "Cast to ObjectId failed"
  | .objectId n => .ok (store.find? fun q => q.id == n)

/-- The handler of `GET /api/quotations/:id`. -/
def getQuotationById (store : List Quotation) (id : IdParam) : Response :=
  match findById store id with
  | .ok none =>
    { status := 404, success := false, message := some "Quotation not found"
      data := none, count := none, error := none, mongodb := none }
  | .ok (some quotation) =>
    { status := 200, success := true, message := none
      data := some (.one quotation), count := none, error := none, mongodb := none }
  | .error e =>
    { status := 500, success := false, message := some "Failed to fetch quotation"
      data := none, count := none, error := some e, mongodb := none }

/-- The handler of `GET /api/quotations/number/:quotationNumber`. -/
def getQuotationByNumber (store : List Quotation) (quotationNumber : String) : Response :=
  match findOne store (some quotationNumber) with
  | none =>
    { status := 404, success := false, message := some "Quotation not found"
      data := none, count := none, error := none, mongodb := none }
  | some quotation =>
    { status := 200, success := true, message := none
      data := some (.one quotation), count := none, error := none, mongodb := none }

/-- The handler of `GET /api/quotations/search/:clientName`: the parameter is
the pattern of a `$regex` query on `clientInfo.name` with option `i`. -/
def searchQuotations (regex : RegexEngine) (store : List Quotation) (clientName : String) :
    Response :=
  match regex clientName with
  | none =>
    { status := 500, success := false, message := some "Failed to search quotations"
      data := none, count := none, error := some "Regular expression is invalid"
      mongodb := none }
  | some test =>
    let quotations := sortNewestFirst (store.filter fun q => test q.clientInfo.name)
    { status := 200, success := true, message := none
      data := some (.many quotations), count := some quotations.length
      error := none, mongodb := none }

/-- The handler of `GET /api/health`; `readyState` is
`mongoose.connection.readyState`. -/
def getHealth (readyState : Nat) : Response :=
  { status := 200, success := true, message := some "Server is running"
    data := none, count := none, error := none
    mongodb := some (if readyState = 1 then "Connected" else "Disconnected") }

/-- A request to any of the eight routes. -/
inductive Call where
  | create (newId now : Nat) (body : QuotationData)
  | readAll
  | readById (id : IdParam)
  | readByNumber (quotationNumber : String)
  | update (id : IdParam) (body : QuotationData)
  | delete (id : IdParam)
  | search (clientName : String)
  | health (readyState : Nat)
  deriving Repr

/-- The response to a request. -/
def respond (regex : RegexEngine) (store : List Quotation) : Call → Response
  | .create newId now body => (postQuotations store newId now body).2
  | .readAll => getQuotations store
  | .readById id => getQuotationById store id
  | .readByNumber quotationNumber => getQuotationByNumber store quotationNumber
  | .update id body => (putQuotation store id body).2
  | .delete id => (deleteQuotation store id).2
  | .search clientName => searchQuotations regex store clientName
  | .health readyState => getHealth readyState

/-! ## Sample inputs -/

/-- A draft with one item priced at 1500 and a client name. -/
def sampleDraft : Draft :=
  { quotationNumber := "Quote-42"
    date := "06/11/2026"
    companyInfo := fixedCompanyInfo
    clientInfo := { name := "Acme Ltd", address := "", phone := "", email := "" }
    items := [{ description := "Laptop", quantity := .num 1, price := .num 1500, total := 1500 }] }

/-- A session that enters a client and two items of quantity 3 and price 1500,
typed into the form as strings. -/
def sampleSession : List Action :=
  [ .clientChange .name "Acme Ltd",
    .itemChange 0 .description "Laptop",
    .itemChange 0 .quantity (.str "3"),
    .itemChange 0 .price (.str "1500"),
    .addItem,
    .itemChange 1 .description "Monitor",
    .itemChange 1 .price (.str "1500"),
    .itemChange 1 .quantity (.str "3") ]

/-- The draft at the end of `sampleSession`. -/
def twoItemDraft : Draft := run (initialFormState 42 "06/11/2026") sampleSession

/-- A server that accepts every request. -/
def acceptAll : Payload → PostOutcome := fun _ => .resolved

/-- A server that answers every request with a 400, as axios reports it. -/
def rejectAll : Payload → PostOutcome := fun _ =>
  .rejected { code := some "ERR_BAD_REQUEST", message := "Request failed with status code 400" }

/-- A create request with every required path except the client record. -/
def noClientBody : QuotationData :=
  { quotationNumber := some "Quote-1"
    date := some "06/11/2026"
    companyInfo := some fixedCompanyInfo
    clientInfo := none
    items := some []
    subtotal := some 0
    grandTotal := some 0
    createdAt := none }

/-- A create request that passes validation. -/
def validBody : QuotationData :=
  { noClientBody with
    clientInfo := some { name := "Acme Ltd", address := "", phone := "", email := "" } }

/-- The words of the search claim: `name` contains `s` as a substring when
the case of (ASCII) letters is ignored. -/
def containsIgnoreCase (name s : String) : Bool :=
  includesChars (s.toList.map Char.toLower) (name.toList.map Char.toLower)

/-- A stored record of the client `Total (K) Ltd`. -/
def totalRecord : Quotation :=
  { id := 1
    quotationNumber := "Quote-1"
    date := "05/11/2026"
    companyInfo := some fixedCompanyInfo
    clientInfo := { name := "Total (K) Ltd", address := "", phone := "", email := "" }
    items := []
    subtotal := 0
    grandTotal := 0
    createdAt := 10 }

/-- A stored record of the client `Acme Ltd`, newer than `totalRecord`. -/
def acmeRecord : Quotation :=
  { totalRecord with
    id := 2
    quotationNumber := "Quote-2"
    clientInfo := { name := "Acme Ltd", address := "", phone := "", email := "" }
    createdAt := 20 }

/-- A collection of two records. -/
def sampleStore : List Quotation := [totalRecord, acmeRecord]

/-! ## Lemmas on the value model -/

namespace JsNum

@[simp] theorem fin_mul_fin (a b : ℚ) : (fin a * fin b : JsNum) = fin (a * b) := rfl

@[simp] theorem fin_add_fin (a b : ℚ) : (fin a + fin b : JsNum) = fin (a + b) := rfl

@[simp] theorem nan_mul (x : JsNum) : (nan * x : JsNum) = nan := by cases x <;> rfl

@[simp] theorem mul_nan (x : JsNum) : (x * nan : JsNum) = nan := by cases x <;> rfl

@[simp] theorem nan_add (x : JsNum) : (nan + x : JsNum) = nan := by cases x <;> rfl

@[simp] theorem add_nan (x : JsNum) : (x + nan : JsNum) = nan := by cases x <;> rfl

@[simp] theorem zero_def : (0 : JsNum) = fin 0 := rfl

@[simp] theorem ofNat_def (n : Nat) [n.AtLeastTwo] : (OfNat.ofNat n : JsNum) = fin n := rfl

@[simp] theorem one_def : (1 : JsNum) = fin 1 := by
  show fin ((1 : Nat) : ℚ) = fin 1
  norm_num

theorem add_zero_right (x : JsNum) : x + 0 = x := by
  cases x <;> simp

end JsNum

/-- Filtering out one index is erasing that position. -/
theorem filterFrom_ne_index {α : Type} (index : Nat) (xs : List α) (start : Nat) :
    filterFrom (fun _ i => i != index) start xs
      = if index < start then xs else xs.eraseIdx (index - start) := by
  induction xs generalizing start with
  | nil => simp [filterFrom]
  | cons x rest ih =>
    simp only [filterFrom, ih]
    by_cases h1 : index < start
    · have h2 : index < start + 1 := by omega
      have h3 : start ≠ index := by omega
      simp [h1, h2, h3]
    · by_cases h4 : start = index
      · subst h4
        simp
      · have h5 : ¬ index < start + 1 := by omega
        have h6 : index - start = (index - (start + 1)) + 1 := by omega
        simp [h1, h4, h5, h6]

theorem jsFilter_ne_index {α : Type} (index : Nat) (xs : List α) :
    jsFilter (fun _ i => i != index) xs = xs.eraseIdx index := by
  simp [jsFilter, filterFrom_ne_index]

theorem handleItemChange_of_lt (formData : Draft) (index : Nat) (field : ItemField)
    (value : field.Value) (h : index < formData.items.length) :
    handleItemChange formData index field value
      = some { formData with
          items := formData.items.set index
            (if field = .quantity ∨ field = .price then
              { formData.items[index].assign field value with
                total := calculateTotal (formData.items[index].assign field value).quantity.toNumber
                  (formData.items[index].assign field value).price.toNumber }
            else formData.items[index].assign field value) } := by
  simp [handleItemChange, List.getElem?_eq_getElem h]

theorem handleItemChange_of_ge (formData : Draft) (index : Nat) (field : ItemField)
    (value : field.Value) (h : formData.items.length ≤ index) :
    handleItemChange formData index field value = none := by
  simp [handleItemChange, List.getElem?_eq_none h]

/-! ## The draft editor -/

/-- Every event keeps at least one item in the draft. -/
theorem step_length (formData : Draft) (action : Action) (h : 1 ≤ formData.items.length) :
    1 ≤ (step formData action).items.length := by
  cases action with
  | itemChange index field value =>
    by_cases hlt : index < formData.items.length
    · simpa [step, handleItemChange_of_lt formData index field value hlt] using h
    · simpa [step, handleItemChange_of_ge formData index field value (by omega)] using h
  | addItem => simp [step, addItem]
  | removeItem index =>
    simp only [step, removeItem]
    split
    · rw [jsFilter_ne_index, List.length_eraseIdx]
      split <;> omega
    · exact h
  | clientChange field value => simpa [step, handleClientChange] using h
  | resetForm rnd0 today0 rnd today => simp [step, resetForm, initialFormState]

/-- An invariant of the first state that every event keeps holds after any
sequence of events. -/
theorem run_invariant (P : Draft → Prop) (hstep : ∀ d a, P d → P (step d a))
    (formData : Draft) (actions : List Action) (h0 : P formData) : P (run formData actions) := by
  induction actions generalizing formData with
  | nil => exact h0
  | cons a rest ih => exact ih (step formData a) (hstep formData a h0)

/-- C4: on a draft with exactly one item, `removeItem` with any index leaves
the whole draft unchanged. -/
theorem removeItem_single (formData : Draft) (index : Nat)
    (h : formData.items.length = 1) : removeItem formData index = formData := by
  simp [removeItem, h]

/-- Witness of C4: removing index 0 of the one-item sample draft changes nothing. -/
theorem removeItem_single_witness :
    sampleDraft.items.length = 1 ∧ removeItem sampleDraft 0 = sampleDraft :=
  ⟨rfl, removeItem_single sampleDraft 0 rfl⟩

/-- C5: in every draft reachable from the initial draft by `handleItemChange`,
`addItem`, `removeItem`, `handleClientChange` and `resetForm`, there is at
least one item. -/
theorem reachable_length (rnd : Nat) (today : String) (actions : List Action) :
    1 ≤ (run (initialFormState rnd today) actions).items.length := by
  refine run_invariant (fun d => 1 ≤ d.items.length) step_length _ actions ?_
  simp [initialFormState]

/-! ## The save action -/

theorem saveQuotation_blank_name (formData : Draft) (now : Nat) (post : Payload → PostOutcome)
    (hname : jsTrim formData.clientInfo.name = "") :
    saveQuotation formData now post =
      { posted := none
        notifications := [⟨"Please enter client name", "error"⟩]
        resetScheduled := false } := by
  unfold saveQuotation
  rw [if_pos hname]

theorem saveQuotation_no_description (formData : Draft) (now : Nat)
    (post : Payload → PostOutcome) (hname : jsTrim formData.clientInfo.name ≠ "")
    (hitems : (formData.items.any fun item => jsTrim item.description != "") = false) :
    saveQuotation formData now post =
      { posted := none
        notifications := [⟨"Please add at least one item description", "error"⟩]
        resetScheduled := false } := by
  unfold saveQuotation
  rw [if_neg hname]
  simp only [hitems, Bool.not_false, if_true]

theorem saveQuotation_valid (formData : Draft) (now : Nat)
    (post : Payload → PostOutcome) (hname : jsTrim formData.clientInfo.name ≠ "")
    (hitems : (formData.items.any fun item => jsTrim item.description != "") = true) :
    saveQuotation formData now post =
      match post ⟨formData, getSubtotal formData, getSubtotal formData, now⟩ with
      | .resolved =>
        { posted := some ⟨formData, getSubtotal formData, getSubtotal formData, now⟩
          notifications := [⟨"Quotation saved successfully to database!", "success"⟩]
          resetScheduled := true }
      | .rejected error =>
        { posted := some ⟨formData, getSubtotal formData, getSubtotal formData, now⟩
          notifications :=
            [⟨if error.code = some "ECONNREFUSED" || jsIncludes error.message "timeout" then
                "Cannot connect to server. Make sure MongoDB and server are running."
              else "Failed to save to database. Check console for details.", "error"⟩]
          resetScheduled := false } := by
  unfold saveQuotation
  rw [if_neg hname]
  simp only [hitems, Bool.not_true, Bool.false_eq_true, if_false]
  cases post ⟨formData, getSubtotal formData, getSubtotal formData, now⟩ with
  | resolved => rfl
  | rejected error =>
    simp only
    split <;> rfl

/-- The local validation of `saveQuotation` passes exactly when the call is made. -/
theorem saveQuotation_posted (formData : Draft) (now : Nat) (post : Payload → PostOutcome) :
    (saveQuotation formData now post).posted =
      if jsTrim formData.clientInfo.name ≠ "" ∧
          (formData.items.any fun item => jsTrim item.description != "") = true then
        some ⟨formData, getSubtotal formData, getSubtotal formData, now⟩
      else none := by
  by_cases hname : jsTrim formData.clientInfo.name = ""
  · rw [saveQuotation_blank_name formData now post hname, if_neg (fun h => h.1 hname)]
  · by_cases hitems : (formData.items.any fun item => jsTrim item.description != "") = true
    · rw [saveQuotation_valid formData now post hname hitems, if_pos ⟨hname, hitems⟩]
      cases post ⟨formData, getSubtotal formData, getSubtotal formData, now⟩ <;> rfl
    · rw [saveQuotation_no_description formData now post hname (by simpa using hitems),
        if_neg (fun h => hitems h.2)]

/-- C6: `saveQuotation` issues the POST if and only if the client name is
non-blank after trimming and some item has a description that is non-blank
after trimming; otherwise it raises one error notification, makes no network
call and registers no reset. -/
theorem saveQuotation_posts_iff (formData : Draft) (now : Nat) (post : Payload → PostOutcome) :
    ((saveQuotation formData now post).posted.isSome = true ↔
      jsTrim formData.clientInfo.name ≠ "" ∧
        ∃ item ∈ formData.items, jsTrim item.description ≠ "") ∧
    ((saveQuotation formData now post).posted.isSome = false →
      (saveQuotation formData now post).posted = none ∧
      (saveQuotation formData now post).resetScheduled = false ∧
      ∃ message, (saveQuotation formData now post).notifications = [⟨message, "error"⟩]) := by
  have hany : (formData.items.any fun item => jsTrim item.description != "") = true ↔
      ∃ item ∈ formData.items, jsTrim item.description ≠ "" := by
    simp [List.any_eq_true]
  constructor
  · rw [saveQuotation_posted, ← hany]
    split <;> simp_all
  · intro hnone
    rw [saveQuotation_posted] at hnone
    split at hnone
    · simp at hnone
    · rename_i hfail
      by_cases hname : jsTrim formData.clientInfo.name = ""
      · rw [saveQuotation_blank_name formData now post hname]
        exact ⟨rfl, rfl, _, rfl⟩
      · have hitems : (formData.items.any fun item => jsTrim item.description != "") = false := by
          cases hb : (formData.items.any fun item => jsTrim item.description != "") with
          | false => rfl
          | true => exact absurd ⟨hname, hb⟩ hfail
        rw [saveQuotation_no_description formData now post hname hitems]
        exact ⟨rfl, rfl, _, rfl⟩

/-- Witness of C6: a draft with a blank client name is rejected locally with an
error notification, whatever the server would answer. -/
theorem saveQuotation_posts_iff_witness :
    (saveQuotation (initialFormState 42 "06/11/2026") 0 acceptAll).posted = none ∧
    (saveQuotation (initialFormState 42 "06/11/2026") 0 acceptAll).resetScheduled = false ∧
    ∃ message, (saveQuotation (initialFormState 42 "06/11/2026") 0 acceptAll).notifications
      = [⟨message, "error"⟩] :=
  (saveQuotation_posts_iff (initialFormState 42 "06/11/2026") 0 acceptAll).2
    (by with_unfolding_all rfl)

/-- C10: when the request of `saveQuotation` fails, whatever the error, no
reset is registered and the draft afterwards is the draft before. -/
theorem saveQuotation_failure_keeps_draft (formData : Draft) (now : Nat)
    (post : Payload → PostOutcome) (rnd0 : Nat) (today0 : String) (rnd : Nat) (today : String)
    (body : Payload) (error : AxiosError)
    (hposted : (saveQuotation formData now post).posted = some body)
    (hfailed : post body = .rejected error) :
    (saveQuotation formData now post).resetScheduled = false ∧
    draftAfterSave formData (saveQuotation formData now post) rnd0 today0 rnd today
      = formData := by
  have hp := saveQuotation_posted formData now post
  rw [hposted] at hp
  split at hp
  · rename_i hvalid
    simp only [Option.some.injEq] at hp
    subst hp
    have hres : (saveQuotation formData now post).resetScheduled = false := by
      rw [saveQuotation_valid formData now post hvalid.1 hvalid.2, hfailed]
    exact ⟨hres, by simp [draftAfterSave, hres]⟩
  · simp at hp

/-- Witness of C10: a 400 on the two-item sample draft leaves it as it was. -/
theorem saveQuotation_failure_keeps_draft_witness :
    (saveQuotation twoItemDraft 0 rejectAll).resetScheduled = false ∧
    draftAfterSave twoItemDraft (saveQuotation twoItemDraft 0 rejectAll) 42 "06/11/2026" 7
        "07/11/2026" = twoItemDraft :=
  saveQuotation_failure_keeps_draft twoItemDraft 0 rejectAll 42 "06/11/2026" 7 "07/11/2026"
    ⟨twoItemDraft, getSubtotal twoItemDraft, getSubtotal twoItemDraft, 0⟩
    ⟨some "ERR_BAD_REQUEST", "Request failed with status code 400"⟩
    (by with_unfolding_all rfl) rfl

/-! ## The persistence service -/

theorem findOne_eq_none_iff (store : List Quotation) (quotationNumber : Option String) :
    findOne store quotationNumber = none ↔
      ¬ ∃ q ∈ store, some q.quotationNumber = quotationNumber := by
  cases quotationNumber with
  | none => simp [findOne]
  | some n => simp [findOne, List.find?_eq_none]

theorem postQuotations_conflict (store : List Quotation) (newId now : Nat)
    (body : QuotationData) (found : Quotation)
    (h : findOne store body.quotationNumber = some found) :
    postQuotations store newId now body =
      (store,
        { status := 400, success := false
          message := some "Quotation number already exists. Please generate a new one."
          data := none, count := none, error := none, mongodb := none }) := by
  simp [postQuotations, h]

theorem postQuotations_invalid (store : List Quotation) (newId now : Nat)
    (body : QuotationData) (h : findOne store body.quotationNumber = none)
    (hv : validateDocument body = false) :
    postQuotations store newId now body =
      (store,
        { status := 500, success := false
          message := some "Failed to save quotation"
          data := none, count := none, error := some "Quotation validation failed"
          mongodb := none }) := by
  simp [postQuotations, h, save, hv]

theorem postQuotations_stored (store : List Quotation) (newId now : Nat)
    (body : QuotationData) (h : findOne store body.quotationNumber = none)
    (hv : validateDocument body = true) :
    postQuotations store newId now body =
      (store ++ [newQuotation newId now body],
        { status := 201, success := true
          message := some "Quotation saved successfully"
          data := some (.one (newQuotation newId now body))
          count := none, error := none, mongodb := none }) := by
  have hfree :
      (store.any fun q => q.quotationNumber == (newQuotation newId now body).quotationNumber)
        = false := by
    rw [findOne_eq_none_iff] at h
    cases hq : body.quotationNumber with
    | none => simp [validateDocument, requiredString, hq] at hv
    | some n =>
      rw [hq] at h
      simp only [newQuotation, hq, Option.getD_some]
      rw [Bool.eq_false_iff]
      intro hany
      rw [List.any_eq_true] at hany
      obtain ⟨q, hmem, heq⟩ := hany
      exact h ⟨q, hmem, by simpa using heq⟩
  simp [postQuotations, h, save, hv, hfree]

/-- Counterexample to C7 as stated: on the empty store no record holds the
number `Quote-1`, yet the request without a client record is not stored and is
not answered with 201. -/
theorem postQuotations_not_always_stored :
    findOne [] noClientBody.quotationNumber = none ∧
    (postQuotations [] 1 0 noClientBody).1 = [] ∧
    (postQuotations [] 1 0 noClientBody).2.status = 500 ∧
    (postQuotations [] 1 0 noClientBody).2.success = false ∧
    (postQuotations [] 1 0 noClientBody).2.data = none := by
  refine ⟨rfl, ?_⟩
  rw [postQuotations_invalid [] 1 0 noClientBody rfl rfl]
  exact ⟨rfl, rfl, rfl, rfl⟩

/-- C7, amended: if a stored record already has the request's quotation number,
the create handler answers 400 with `success: false` and the store is
unchanged; otherwise, if the request passes the schema's validation, it appends
the record and returns it with 201 and `success: true`; otherwise the request
is answered with `success: false` and the store is unchanged. -/
theorem postQuotations_spec (store : List Quotation) (newId now : Nat) (body : QuotationData) :
    ((∃ q ∈ store, some q.quotationNumber = body.quotationNumber) →
      (postQuotations store newId now body).1 = store ∧
      (postQuotations store newId now body).2.status = 400 ∧
      (postQuotations store newId now body).2.success = false) ∧
    ((¬ ∃ q ∈ store, some q.quotationNumber = body.quotationNumber) →
      validateDocument body = true →
      (postQuotations store newId now body).1 = store ++ [newQuotation newId now body] ∧
      (postQuotations store newId now body).2.status = 201 ∧
      (postQuotations store newId now body).2.success = true ∧
      (postQuotations store newId now body).2.data
        = some (.one (newQuotation newId now body))) ∧
    ((¬ ∃ q ∈ store, some q.quotationNumber = body.quotationNumber) →
      validateDocument body = false →
      (postQuotations store newId now body).1 = store ∧
      (postQuotations store newId now body).2.success = false) := by
  refine ⟨?_, ?_, ?_⟩
  · intro hdup
    cases hfind : findOne store body.quotationNumber with
    | none => exact absurd hdup ((findOne_eq_none_iff store _).1 hfind)
    | some found =>
      rw [postQuotations_conflict store newId now body found hfind]
      exact ⟨rfl, rfl, rfl⟩
  · intro hfree hv
    rw [postQuotations_stored store newId now body ((findOne_eq_none_iff store _).2 hfree) hv]
    exact ⟨rfl, rfl, rfl, rfl⟩
  · intro hfree hv
    rw [postQuotations_invalid store newId now body ((findOne_eq_none_iff store _).2 hfree) hv]
    exact ⟨rfl, rfl⟩

/-- Witness of C7, amended: a valid request is stored on the empty store, and
the same request sent again is answered 400 with the store unchanged. -/
theorem postQuotations_spec_witness :
    (postQuotations [] 1 0 validBody).1 = [newQuotation 1 0 validBody] ∧
    (postQuotations [] 1 0 validBody).2.status = 201 ∧
    (postQuotations [newQuotation 1 0 validBody] 2 5 validBody).1
      = [newQuotation 1 0 validBody] ∧
    (postQuotations [newQuotation 1 0 validBody] 2 5 validBody).2.status = 400 :=
  have hfirst := (postQuotations_spec [] 1 0 validBody).2.1 (by simp) rfl
  have hsecond := (postQuotations_spec [newQuotation 1 0 validBody] 2 5 validBody).1
    ⟨newQuotation 1 0 validBody, List.mem_singleton.2 rfl, rfl⟩
  ⟨hfirst.1, hfirst.2.1, hsecond.1, hsecond.2.1⟩

theorem updateFirst_nodup (id : Nat) (body : QuotationData) (after before : List Quotation)
    (quotation : Quotation) (store1 : List Quotation)
    (hnodup : ((before ++ after).map Quotation.quotationNumber).Nodup)
    (h : updateFirst id body before after = .ok (some (quotation, store1))) :
    (store1.map Quotation.quotationNumber).Nodup := by
  induction after generalizing before with
  | nil => simp [updateFirst] at h
  | cons q rest ih =>
    unfold updateFirst at h
    split at h
    · simp only at h
      split at h
      · simp at h
      · rename_i hfree
        simp only [Except.ok.injEq, Option.some.injEq, Prod.mk.injEq] at h
        obtain ⟨-, hstore⟩ := h
        subst hstore
        have hsub : List.Sublist ((before ++ rest).map Quotation.quotationNumber)
            ((before ++ q :: rest).map Quotation.quotationNumber) :=
          List.Sublist.map _ (List.Sublist.append_left (List.sublist_cons_self q rest) before)
        have hnd : ((before ++ rest).map Quotation.quotationNumber).Nodup :=
          List.Nodup.sublist hsub hnodup
        rw [List.map_append, List.map_cons, List.nodup_middle, ← List.map_append]
        refine List.nodup_cons.2 ⟨?_, hnd⟩
        intro hmem
        apply hfree
        rw [List.mem_map] at hmem
        obtain ⟨other, hother, heq⟩ := hmem
        rw [List.any_eq_true]
        exact ⟨other, hother, by simpa using heq⟩
    · exact ih (before ++ [q]) (by simpa using hnodup) h

theorem serve_nodup (store : List Quotation) (request : Request)
    (h : (store.map Quotation.quotationNumber).Nodup) :
    ((serve store request).map Quotation.quotationNumber).Nodup := by
  cases request with
  | create newId now body =>
    simp only [serve, postQuotations]
    split
    · exact h
    · split
      · rename_i store1 hsave
        simp only [save] at hsave
        split at hsave
        · simp at hsave
        · split at hsave
          · simp at hsave
          · rename_i hfree
            simp only [Except.ok.injEq] at hsave
            subst hsave
            simp only [List.map_append, List.map_cons, List.map_nil]
            rw [List.nodup_append]
            refine ⟨h, List.nodup_singleton _, ?_⟩
            intro a ha hb
            rw [List.mem_singleton] at hb
            subst hb
            apply hfree
            rw [List.mem_map] at ha
            obtain ⟨other, hother, heq⟩ := ha
            rw [List.any_eq_true]
            exact ⟨other, hother, by simpa using heq⟩
      · exact h
  | update id body =>
    simp only [serve, putQuotation]
    split
    · exact h
    · rename_i quotation store1 hupd
      cases id with
      | malformed => simp [findByIdAndUpdate] at hupd
      | objectId n =>
        simp only [findByIdAndUpdate] at hupd
        split at hupd
        · simp at hupd
        · exact updateFirst_nodup n body store [] quotation store1 (by simpa using h) hupd
    · exact h
  | delete id =>
    simp only [serve, deleteQuotation]
    split
    · exact h
    · rename_i quotation store1 hdel
      cases id with
      | malformed => simp [findByIdAndDelete] at hdel
      | objectId n =>
        simp only [findByIdAndDelete] at hdel
        split at hdel
        · simp at hdel
        · simp only [Except.ok.injEq, Option.some.injEq, Prod.mk.injEq] at hdel
          obtain ⟨-, hstore⟩ := hdel
          subst hstore
          exact List.Nodup.sublist (List.Sublist.map _ (List.eraseP_sublist store)) h
    · exact h

theorem serveAll_nodup_of (requests : List Request) (store : List Quotation)
    (h : (store.map Quotation.quotationNumber).Nodup) :
    ((serveAll store requests).map Quotation.quotationNumber).Nodup := by
  induction requests generalizing store with
  | nil => exact h
  | cons r rest ih => exact ih (serve store r) (serve_nodup store r h)

/-- C8: after any sequence of create, update and delete requests applied to the
empty store, no two stored records share a quotation number. -/
theorem serveAll_nodup (requests : List Request) :
    ((serveAll [] requests).map Quotation.quotationNumber).Nodup :=
  serveAll_nodup_of requests [] List.nodup_nil

/-! ## The read handlers -/

/-- C11 at the failing input: the name `Total (K) Ltd` contains the search
string `Total (K)`, yet the search handler, which reads the string as a
pattern, answers with no record; and it answers the search `A.me` with the
record of `Acme Ltd`, whose name does not contain that string. -/
theorem searchQuotations_reads_pattern :
    containsIgnoreCase totalRecord.clientInfo.name "Total (K)" = true ∧
    (searchQuotations pcreSubset sampleStore "Total (K)").status = 200 ∧
    (searchQuotations pcreSubset sampleStore "Total (K)").data = some (.many []) ∧
    containsIgnoreCase acmeRecord.clientInfo.name "A.me" = false ∧
    (searchQuotations pcreSubset sampleStore "A.me").data = some (.many [acmeRecord]) := by
  refine ⟨?_, ?_, ?_, ?_, ?_⟩ <;> with_unfolding_all rfl

/-- Counterexample to C13 as stated: the successful read-all response carries
no message, and the successful delete response carries no data. -/
theorem success_without_message_or_data :
    (respond pcreSubset sampleStore .readAll).success = true ∧
    (respond pcreSubset sampleStore .readAll).message = none ∧
    (respond pcreSubset sampleStore (.delete (.objectId 1))).success = true ∧
    (respond pcreSubset sampleStore (.delete (.objectId 1))).data = none := by
  refine ⟨?_, ?_, ?_, ?_⟩ <;> with_unfolding_all rfl

/-- C13, amended: every response carries the success flag; every failure
response carries a message and no data; a successful create or update carries
a message and data; a successful read-all, read-one (by id or by number) or
search carries data and no message; a successful delete or health check
carries a message and no data. -/
theorem respond_envelope (regex : RegexEngine) (store : List Quotation) :
    (∀ call, (respond regex store call).success = false →
      (respond regex store call).message.isSome = true ∧
      (respond regex store call).data = none) ∧
    (∀ newId now body, (respond regex store (.create newId now body)).success = true →
      (respond regex store (.create newId now body)).message.isSome = true ∧
      (respond regex store (.create newId now body)).data.isSome = true) ∧
    (∀ id body, (respond regex store (.update id body)).success = true →
      (respond regex store (.update id body)).message.isSome = true ∧
      (respond regex store (.update id body)).data.isSome = true) ∧
    ((respond regex store .readAll).success = true ∧
      (respond regex store .readAll).message = none ∧
      (respond regex store .readAll).data.isSome = true) ∧
    (∀ id, (respond regex store (.readById id)).success = true →
      (respond regex store (.readById id)).message = none ∧
      (respond regex store (.readById id)).data.isSome = true) ∧
    (∀ k, (respond regex store (.readByNumber k)).success = true →
      (respond regex store (.readByNumber k)).message = none ∧
      (respond regex store (.readByNumber k)).data.isSome = true) ∧
    (∀ s, (respond regex store (.search s)).success = true →
      (respond regex store (.search s)).message = none ∧
      (respond regex store (.search s)).data.isSome = true) ∧
    (∀ id, (respond regex store (.delete id)).success = true →
      (respond regex store (.delete id)).message.isSome = true ∧
      (respond regex store (.delete id)).data = none) ∧
    (∀ readyState, (respond regex store (.health readyState)).success = true ∧
      (respond regex store (.health readyState)).message.isSome = true ∧
      (respond regex store (.health readyState)).data = none) := by
  refine ⟨?_, ?_, ?_, ?_, ?_, ?_, ?_, ?_, ?_⟩
  · intro call
    cases call <;>
      simp only [respond, postQuotations, getQuotations, getQuotationById,
        getQuotationByNumber, putQuotation, deleteQuotation, searchQuotations, getHealth] <;>
      (repeat' split) <;> simp
  · intro newId now body
    simp only [respond, postQuotations]
    (repeat' split) <;> simp
  · intro id body
    simp only [respond, putQuotation]
    (repeat' split) <;> simp
  · simp [respond, getQuotations]
  · intro id
    simp only [respond, getQuotationById]
    (repeat' split) <;> simp
  · intro k
    simp only [respond, getQuotationByNumber]
    (repeat' split) <;> simp
  · intro s
    simp only [respond, searchQuotations]
    (repeat' split) <;> simp
  · intro id
    simp only [respond, deleteQuotation]
    (repeat' split) <;> simp
  · intro readyState
    simp [respond, getHealth]

/-- Witness of C13, amended: reading the stored id 2 succeeds with data and
without a message. -/
theorem respond_envelope_witness :
    (respond pcreSubset sampleStore (.readById (.objectId 2))).success = true ∧
    (respond pcreSubset sampleStore (.readById (.objectId 2))).message = none ∧
    (respond pcreSubset sampleStore (.readById (.objectId 2))).data.isSome = true :=
  have hs : (respond pcreSubset sampleStore (.readById (.objectId 2))).success = true := by
    with_unfolding_all rfl
  ⟨hs, (respond_envelope pcreSubset sampleStore).2.2.2.2.1 (.objectId 2) hs⟩

/-! ## The export action -/

/-- C14: for a canvas of positive width `cw` and height `ch`, the placement
that `downloadPDF` computes on the 210 by 297 page keeps the aspect ratio, fits
the page with one side equal to the page's, and is centred with non-negative
margins. -/
theorem imagePlacement_fits (cw ch : ℚ) (hw : 0 < cw) (hh : 0 < ch) :
    (imagePlacement cw ch).imgWidth / (imagePlacement cw ch).imgHeight = cw / ch ∧
    (imagePlacement cw ch).imgWidth ≤ 210 ∧
    (imagePlacement cw ch).imgHeight ≤ 297 ∧
    ((imagePlacement cw ch).imgWidth = 210 ∨ (imagePlacement cw ch).imgHeight = 297) ∧
    (imagePlacement cw ch).x = (210 - (imagePlacement cw ch).imgWidth) / 2 ∧
    0 ≤ (imagePlacement cw ch).x ∧
    (imagePlacement cw ch).y = (297 - (imagePlacement cw ch).imgHeight) / 2 ∧
    0 ≤ (imagePlacement cw ch).y := by
  have hr : 0 < cw / ch := div_pos hw hh
  by_cases hwide : cw / ch > pageWidth / pageHeight
  · have hheight : pageWidth / (cw / ch) ≤ 297 := by
      rw [div_le_iff₀ hr]
      have h1 : pageWidth / pageHeight * 297 < cw / ch * 297 :=
        mul_lt_mul_of_pos_right hwide (by norm_num)
      have h2 : pageWidth / pageHeight * 297 = pageWidth := by
        simp only [pageWidth, pageHeight]
        norm_num
      rw [h2] at h1
      linarith
    have hratio : pageWidth / (pageWidth / (cw / ch)) = cw / ch := by
      have hp : pageWidth ≠ 0 := by simp only [pageWidth]; norm_num
      field_simp
      ring
    simp only [imagePlacement, if_pos hwide]
    refine ⟨hratio, ?_, hheight, ?_, ?_, ?_, rfl, ?_⟩
    · simp only [pageWidth]; norm_num
    · left; rfl
    · rfl
    · simp only [pageWidth]; norm_num
    · simp only [pageHeight] at hheight ⊢
      linarith
  · have hle : cw / ch ≤ pageWidth / pageHeight := not_lt.1 hwide
    have hwidth : pageHeight * (cw / ch) ≤ 210 := by
      have h1 : pageHeight * (cw / ch) ≤ pageHeight * (pageWidth / pageHeight) :=
        mul_le_mul_of_nonneg_left hle (by simp only [pageHeight]; norm_num)
      have h2 : pageHeight * (pageWidth / pageHeight) = 210 := by
        simp only [pageWidth, pageHeight]
        norm_num
      rw [h2] at h1
      exact h1
    have hratio : pageHeight * (cw / ch) / pageHeight = cw / ch := by
      have hp : pageHeight ≠ 0 := by simp only [pageHeight]; norm_num
      field_simp
      ring
    simp only [imagePlacement, if_neg hwide]
    refine ⟨hratio, hwidth, ?_, ?_, ?_, ?_, ?_, ?_⟩
    · simp only [pageHeight]; norm_num
    · right; rfl
    · rfl
    · simp only [pageWidth]
      linarith
    · rfl
    · simp only [pageHeight]; norm_num

/-- Witness of C14: a 2400 by 3000 canvas is fitted to the height of the page,
237.6 by 297, with side margins of 13.8. -/
theorem imagePlacement_fits_witness :
    (imagePlacement 2400 3000).imgWidth / (imagePlacement 2400 3000).imgHeight
      = (2400 : ℚ) / 3000 ∧
    (imagePlacement 2400 3000).imgWidth ≤ 210 ∧
    (imagePlacement 2400 3000).imgHeight ≤ 297 ∧
    ((imagePlacement 2400 3000).imgWidth = 210 ∨ (imagePlacement 2400 3000).imgHeight = 297) ∧
    (imagePlacement 2400 3000).x = (210 - (imagePlacement 2400 3000).imgWidth) / 2 ∧
    0 ≤ (imagePlacement 2400 3000).x ∧
    (imagePlacement 2400 3000).y = (297 - (imagePlacement 2400 3000).imgHeight) / 2 ∧
    0 ≤ (imagePlacement 2400 3000).y :=
  imagePlacement_fits 2400 3000 (by norm_num) (by norm_num)

/-- C15: after every run of `downloadPDF`, whether or not a step throws, the
flag `isGeneratingPDF` is false and the draft is the one before the run; when
a step throws, the run raises the error notification after the progress
notification and no success notification. -/
theorem downloadPDF_restores (ui : UiState) (env : ExportEnv) :
    (downloadPDF ui env).1.isGeneratingPDF = false ∧
    (downloadPDF ui env).1.formData = ui.formData ∧
    (env.canvas = none ∨ env.pdfWritten = false →
      (downloadPDF ui env).2.notifications =
        [⟨"Generating PDF...", "info"⟩,
         ⟨"Failed to generate PDF. Please try again.", "error"⟩] ∧
      (downloadPDF ui env).2.saved = none) := by
  refine ⟨?_, ?_, ?_⟩
  · unfold downloadPDF
    split <;> rfl
  · unfold downloadPDF
    split <;> rfl
  · intro hthrow
    have hnone : exportAttempt ui.formData env = none := by
      unfold exportAttempt
      rcases hthrow with hc | hp
      · rw [hc]
      · cases env.canvas with
        | none => rfl
        | some size => simp [hp]
    simp [downloadPDF, hnone]

/-- Witness of C15: a capture that throws ends with the flag cleared, the draft
kept and the error notification. -/
theorem downloadPDF_restores_witness :
    (downloadPDF (initialUi 42 "06/11/2026") ⟨none, true⟩).2.notifications =
      [⟨"Generating PDF...", "info"⟩,
       ⟨"Failed to generate PDF. Please try again.", "error"⟩] ∧
    (downloadPDF (initialUi 42 "06/11/2026") ⟨none, true⟩).2.saved = none :=
  (downloadPDF_restores (initialUi 42 "06/11/2026") ⟨none, true⟩).2.2 (Or.inl rfl)

theorem uiStep_running (ui : UiState) (event : UiEvent)
    (h : ui.exportsRunning = if ui.isGeneratingPDF then 1 else 0) :
    (uiStep ui event).exportsRunning = if (uiStep ui event).isGeneratingPDF then 1 else 0 := by
  cases event with
  | edit action => simpa [uiStep] using h
  | clickDownload =>
    cases hflag : ui.isGeneratingPDF with
    | true => simpa [uiStep, downloadDisabled, hflag] using h
    | false =>
      rw [hflag] at h
      simp [uiStep, downloadDisabled, hflag, downloadPDFStart, h]
  | exportSettles =>
    by_cases hzero : ui.exportsRunning = 0
    · simpa [uiStep, hzero] using h
    · cases hflag : ui.isGeneratingPDF with
      | true =>
        rw [hflag] at h
        simp [uiStep, hzero, downloadPDFFinally, h]
      | false =>
        rw [hflag] at h
        exact absurd (by simpa using h) hzero

theorem uiRun_running (events : List UiEvent) (ui : UiState)
    (h : ui.exportsRunning = if ui.isGeneratingPDF then 1 else 0) :
    (uiRun ui events).exportsRunning = if (uiRun ui events).isGeneratingPDF then 1 else 0 := by
  induction events generalizing ui with
  | nil => exact h
  | cons e rest ih => exact ih (uiStep ui e) (uiStep_running ui e h)

/-- C16: in every state reachable from the first render by edits, clicks on the
Download PDF button and exports settling, at most one export is running, one
is running exactly when `isGeneratingPDF` is true, and in that case a click on
the button starts nothing: the state stays as it is. -/
theorem export_not_reentrant (rnd : Nat) (today : String) (events : List UiEvent) :
    (uiRun (initialUi rnd today) events).exportsRunning ≤ 1 ∧
    ((uiRun (initialUi rnd today) events).exportsRunning = 1 ↔
      (uiRun (initialUi rnd today) events).isGeneratingPDF = true) ∧
    ((uiRun (initialUi rnd today) events).isGeneratingPDF = true →
      uiStep (uiRun (initialUi rnd today) events) .clickDownload
        = uiRun (initialUi rnd today) events) := by
  have hinv := uiRun_running events (initialUi rnd today) rfl
  refine ⟨?_, ?_, ?_⟩
  · rw [hinv]
    split <;> omega
  · rw [hinv]
    cases (uiRun (initialUi rnd today) events).isGeneratingPDF <;> simp
  · intro hflag
    simp [uiStep, downloadDisabled, hflag]

/-- Witness of C16: after one click the flag is set, and a second click leaves
the state as it is. -/
theorem export_not_reentrant_witness :
    (uiRun (initialUi 42 "06/11/2026") [.clickDownload]).isGeneratingPDF = true ∧
    uiStep (uiRun (initialUi 42 "06/11/2026") [.clickDownload]) .clickDownload
      = uiRun (initialUi 42 "06/11/2026") [.clickDownload] :=
  ⟨rfl, (export_not_reentrant 42 "06/11/2026" [.clickDownload]).2.2 rfl⟩

/-! ## Frame properties of the editing operations -/

/-- C17: `addItem` installs the previous items, unchanged and in order,
followed by one blank item (empty description, quantity 1, price 0, total 0),
and keeps every other field of the draft. -/
theorem addItem_appends (formData : Draft) :
    (addItem formData).items
      = formData.items ++
        [{ description := "", quantity := .num 1, price := .num 0, total := 0 }] ∧
    (addItem formData).quotationNumber = formData.quotationNumber ∧
    (addItem formData).date = formData.date ∧
    (addItem formData).companyInfo = formData.companyInfo ∧
    (addItem formData).clientInfo = formData.clientInfo :=
  ⟨rfl, rfl, rfl, rfl, rfl⟩

/-- C18: `handleItemChange`, `addItem`, `removeItem` and `handleClientChange`
leave the draft's quotation number, date and company record as they were. -/
theorem editing_keeps_header (formData : Draft) :
    (∀ index field value d, handleItemChange formData index field value = some d →
      d.quotationNumber = formData.quotationNumber ∧ d.date = formData.date ∧
      d.companyInfo = formData.companyInfo) ∧
    ((addItem formData).quotationNumber = formData.quotationNumber ∧
      (addItem formData).date = formData.date ∧
      (addItem formData).companyInfo = formData.companyInfo) ∧
    (∀ index, (removeItem formData index).quotationNumber = formData.quotationNumber ∧
      (removeItem formData index).date = formData.date ∧
      (removeItem formData index).companyInfo = formData.companyInfo) ∧
    (∀ field value,
      (handleClientChange formData field value).quotationNumber = formData.quotationNumber ∧
      (handleClientChange formData field value).date = formData.date ∧
      (handleClientChange formData field value).companyInfo = formData.companyInfo) := by
  refine ⟨?_, ⟨rfl, rfl, rfl⟩, ?_, fun _ _ => ⟨rfl, rfl, rfl⟩⟩
  · intro index field value d hd
    by_cases hlt : index < formData.items.length
    · rw [handleItemChange_of_lt formData index field value hlt] at hd
      simp only [Option.some.injEq] at hd
      subst hd
      exact ⟨rfl, rfl, rfl⟩
    · rw [handleItemChange_of_ge formData index field value (by omega)] at hd
      simp at hd
  · intro index
    unfold removeItem
    split
    · exact ⟨rfl, rfl, rfl⟩
    · exact ⟨rfl, rfl, rfl⟩

/-- Witness of C18: writing a quantity into the sample draft keeps its number,
date and company record. -/
theorem editing_keeps_header_witness :
    ∃ d, handleItemChange sampleDraft 0 .quantity (.str "3") = some d ∧
      d.quotationNumber = "Quote-42" ∧ d.date = "06/11/2026" ∧
      d.companyInfo = fixedCompanyInfo :=
  ⟨_, handleItemChange_of_lt sampleDraft 0 .quantity (.str "3") (by decide),
    (editing_keeps_header sampleDraft).1 0 .quantity (.str "3") _
      (handleItemChange_of_lt sampleDraft 0 .quantity (.str "3") (by decide))⟩

/-- C19: on a draft with at least two items, `removeItem(i)` with `i` the index
of an item installs the items before `i` followed by the items after `i`, one
fewer in all; with any other `i` it keeps the item list. -/
theorem removeItem_erases (formData : Draft) (i : Nat) (h : 2 ≤ formData.items.length) :
    (i < formData.items.length →
      (removeItem formData i).items = formData.items.take i ++ formData.items.drop (i + 1) ∧
      (removeItem formData i).items.length = formData.items.length - 1) ∧
    (formData.items.length ≤ i → (removeItem formData i).items = formData.items) := by
  have hitems : (removeItem formData i).items = formData.items.eraseIdx i := by
    have hgt : formData.items.length > 1 := by omega
    simp [removeItem, hgt, jsFilter_ne_index]
  constructor
  · intro hlt
    rw [hitems]
    exact ⟨List.eraseIdx_eq_take_drop_succ _ _, List.length_eraseIdx_of_lt hlt⟩
  · intro hge
    rw [hitems]
    exact List.eraseIdx_of_length_le hge

/-- Witness of C19: removing index 0 of the two-item sample draft leaves the
second item alone. -/
theorem removeItem_erases_witness :
    (removeItem twoItemDraft 0).items
      = twoItemDraft.items.take 0 ++ twoItemDraft.items.drop 1 ∧
    (removeItem twoItemDraft 0).items.length = twoItemDraft.items.length - 1 :=
  (removeItem_erases twoItemDraft 0 (by with_unfolding_all decide)).1
    (by with_unfolding_all decide)

/-- C20: for an index `i` of an existing item and any of the fields
description, quantity and price, `handleItemChange(i, field, value)` installs a
draft with as many items, in which every item at another index is as before;
when the field is the description, item `i` keeps its quantity, price and
total. -/
theorem handleItemChange_frame (formData : Draft) (i : Nat) (field : ItemField)
    (value : field.Value) (hi : i < formData.items.length) :
    ∃ d, handleItemChange formData i field value = some d ∧
      d.items.length = formData.items.length ∧
      (∀ j, j ≠ i → d.items[j]? = formData.items[j]?) ∧
      (field = .description → ∃ item, d.items[i]? = some item ∧
        item.quantity = formData.items[i].quantity ∧
        item.price = formData.items[i].price ∧
        item.total = formData.items[i].total) := by
  refine ⟨_, handleItemChange_of_lt formData i field value hi, ?_, ?_, ?_⟩
  · simp
  · intro j hj
    simp [List.getElem?_set_ne (Ne.symm hj)]
  · intro hfield
    subst hfield
    refine ⟨_, List.getElem?_set_self hi, ?_⟩
    simp [Item.assign]

/-- Witness of C20: a new description for item 0 of the two-item sample draft
keeps two items and leaves item 1 as it was. -/
theorem handleItemChange_frame_witness :
    ∃ d, handleItemChange twoItemDraft 0 .description "Desk" = some d ∧
      d.items.length = twoItemDraft.items.length ∧
      d.items[1]? = twoItemDraft.items[1]? := by
  obtain ⟨d, hd, hlen, hother, -⟩ :=
    handleItemChange_frame twoItemDraft 0 .description "Desk" (by with_unfolding_all decide)
  exact ⟨d, hd, hlen, hother 1 (by decide)⟩

end QuotationMaker
